import Mathlib

/-!
Verification development for the administrative-report automation script
(`code.py`).  The core of the repository is two functions:

  * `carregar_dados` — discovers `.csv` / `.xlsx` files in a directory,
    parses each, tags every row with its source-file name
    (`Origem_Arquivo`), and concatenates all parsed tables with
    `pd.concat(dfs, ignore_index=True)`;
  * `calcular_metricas` — inspects lowercased column names and builds a
    dict of up to five indicators.

We embed the pandas data model shallowly: a `DataFrame` is an ordered list
of column names together with positional rows; cells are scalars
(`Val`).  File-system reads and the pandas parsers are external effects,
so a directory is modelled as a listing of entries where each entry
carries the parse outcome (`none` = the parser raised).  Exceptions are
modelled with `Except`.

Numeric cells are exact rationals.  So that every definition evaluates
inside the kernel (witness proofs use `decide`), the arithmetic used by
the embedding is written with `mkRat`-based primitives `qAdd`, `qSub`,
`qDiv`; the lemmas `qAdd_eq_add`, `qSub_eq_sub`, `qDiv_eq_div` prove them
equal to `+`, `-`, `/` on `ℚ`, and the claim theorems are stated with the
ordinary operations.
-/

/-- A scalar cell of a pandas DataFrame: numeric, text, datetime, or
missing (`NaN` / `NaT` / absent). Numeric values are embedded as rationals. -/
inductive Val where
  | num (q : ℚ)
  | str (s : String)
  | date (t : ℤ)
  | null
deriving DecidableEq, Repr

/-- A pandas DataFrame: ordered column labels and positional rows.
Row `r` holds the value of column `cols[j]` at position `j`. -/
structure DataFrame where
  cols : List String
  rows : List (List Val)
deriving DecidableEq, Repr

/-- Rectangularity: every row has exactly one cell per column.  Every frame
produced by the pandas parsers satisfies this. -/
def DataFrame.WF (df : DataFrame) : Prop :=
  ∀ r ∈ df.rows, r.length = df.cols.length

instance (df : DataFrame) : Decidable df.WF := by
  unfold DataFrame.WF; infer_instance

/-- Exact rational addition, written through `mkRat` so that it reduces in
the kernel.  `qAdd_eq_add` below proves `qAdd a b = a + b`. -/
def qAdd (a b : ℚ) : ℚ :=
  mkRat (a.num * b.den + b.num * a.den) (a.den * b.den)

/-- Exact rational subtraction through `mkRat`; equals `a - b`. -/
def qSub (a b : ℚ) : ℚ :=
  mkRat (a.num * b.den - b.num * a.den) (a.den * b.den)

/-- Exact rational division through `mkRat`; equals `a / b` (with the
`ℚ` convention `a / 0 = 0` — every use in the claims is guarded by a
nonzero denominator). -/
def qDiv (a b : ℚ) : ℚ :=
  if 0 ≤ b.num then mkRat (a.num * b.den) (a.den * b.num.toNat)
  else mkRat (-(a.num * b.den)) (a.den * (-b.num).toNat)

/-- `str.lower()`: lowercase each character.  Identical to Python's
`lower()` on the ASCII column labels this program matches against. -/
def minusculas (s : String) : String :=
  ⟨s.data.map Char.toLower⟩

/-- Index of the first occurrence of label `c` in a column list
(pandas label lookup resolves to the first matching column). -/
def firstIdx (c : String) : List String → Option Nat
  | [] => none
  | c' :: cs => if c' = c then some 0 else (firstIdx c cs).map (· + 1)

/-- The cell a row holds under column label `c` (missing labels and short
rows read as `null`). -/
def cellVal (cols : List String) (row : List Val) (c : String) : Val :=
  match firstIdx c cols with
  | some j => row.getD j Val.null
  | none => Val.null

/-- The values of column `c`, top to bottom. -/
def coluna (df : DataFrame) (c : String) : List Val :=
  df.rows.map (fun r => cellVal df.cols r c)

/-- Errors the script can raise. `NoInputFiles` is the
`FileNotFoundError("Nenhum arquivo CSV ou Excel encontrado ...")` of
`carregar_dados`; `NoLoadableData` is its
`ValueError("Nenhum dado pôde ser carregado.")`; `KeyError c` is the
Python `KeyError` raised by `df[c]` when `c` is not a column label. -/
inductive Erro where
  | NoInputFiles
  | NoLoadableData
  | KeyError (c : String)
deriving DecidableEq, Repr

instance {ε α : Type} [DecidableEq ε] [DecidableEq α] : DecidableEq (Except ε α) :=
  fun x y =>
    match x, y with
    | .error a, .error b =>
      if h : a = b then .isTrue (by rw [h])
      else .isFalse (fun hc => h (by injection hc))
    | .error _, .ok _ => .isFalse (fun hc => Except.noConfusion hc)
    | .ok _, .error _ => .isFalse (fun hc => Except.noConfusion hc)
    | .ok a, .ok b =>
      if h : a = b then .isTrue (by rw [h])
      else .isFalse (fun hc => h (by injection hc))

/-- `df[c]`: Python subscripting of a DataFrame — the column's values when
the label exists, a `KeyError` otherwise. -/
def getColumn (df : DataFrame) (c : String) : Except Erro (List Val) :=
  match firstIdx c df.cols with
  | some _ => .ok (coluna df c)
  | none => .error (.KeyError c)

/-- `df.columns.str.lower()` — the lowercased column labels. -/
def lowerCols (df : DataFrame) : List String :=
  df.cols.map minusculas

/-- `df.loc[:, df.columns[colunas == tok][0]]` — the values of the first
column whose lowercased label equals `tok`.  Only evaluated under a guard
that guarantees such a column exists (the `[]` default is unreachable). -/
def colunaOriginal (df : DataFrame) (tok : String) : List Val :=
  match df.cols.find? (fun c => minusculas c = tok) with
  | some c => coluna df c
  | none => []

/-- Numeric reading of a cell; non-numeric cells do not contribute to sums. -/
def toNum : Val → Option ℚ
  | .num q => some q
  | _ => none

/-- `series.sum()` — pandas skips nulls, so missing values contribute 0.
`somaColuna_eq_sum` below identifies this with `List.sum` of the numeric
entries. -/
def somaColuna (vs : List Val) : ℚ :=
  (vs.filterMap toNum).foldr qAdd 0

/-- `series.nunique()` — the number of distinct non-null values. -/
def nunique (vs : List Val) : Nat :=
  ((vs.filter (fun v => v ≠ Val.null)).dedup).length

/-- `metricas[k]`: dict access.  Total here with default 0; every use below
sits under a guard that has already inserted the key. -/
def valorDe (m : List (String × ℚ)) (k : String) : ℚ :=
  (m.lookup k).getD 0

/-- `calcular_metricas` (code.py lines 61–82).  The dict is modelled as an
association list in insertion order.  Presence tests are against the
lowercased labels; the `receita` / `despesa` rules read back through the
original-cased label, while the `funcionario` / `producao` and
`vendas` / `quantidade` rules subscript with the literal lowercase name,
which raises `KeyError` when only a differently-cased column exists. -/
def calcular_metricas (df : DataFrame) : Except Erro (List (String × ℚ)) :=
  let colunas := lowerCols df
  let m1 : List (String × ℚ) :=
    (if "receita" ∈ colunas then
      [("Receita Total", somaColuna (colunaOriginal df "receita"))] else [])
    ++ (if "despesa" ∈ colunas then
      [("Custo Operacional Total", somaColuna (colunaOriginal df "despesa"))] else [])
  match (if "funcionario" ∈ colunas ∧ "producao" ∈ colunas then
          (getColumn df "producao").bind (fun producao =>
            (getColumn df "funcionario").map (fun funcionario =>
              [("Produtividade Média",
                qDiv (somaColuna producao) (nunique funcionario : ℚ))]))
        else .ok []) with
  | .error e => .error e
  | .ok mp =>
    let m2 := m1 ++ mp
    let m3 := m2 ++
      (if "receita" ∈ colunas ∧ "despesa" ∈ colunas then
        [("Lucro Líquido",
          qSub (valorDe m2 "Receita Total") (valorDe m2 "Custo Operacional Total"))]
      else [])
    match (if "vendas" ∈ colunas ∧ "quantidade" ∈ colunas then
            (getColumn df "vendas").bind (fun vendas =>
              (getColumn df "quantidade").map (fun quantidade =>
                [("Ticket Médio", qDiv (somaColuna vendas) (somaColuna quantidade))]))
          else .ok []) with
    | .error e => .error e
    | .ok mt => .ok (m3 ++ mt)

/-- A directory entry as the loader sees it: the file name, and the outcome
of handing the file to the pandas parser implied by its extension
(`none` when `pd.read_csv` / `pd.read_excel` raises). Entries whose name
has no recognized extension are filtered out before parsing, so their
`conteudo` is never consulted. -/
structure Arquivo where
  nome : String
  conteudo : Option DataFrame
deriving DecidableEq, Repr

/-- `f.endswith(('.csv', '.xlsx'))`, via the character lists. -/
def reconhecido (nome : String) : Bool :=
  ".csv".data.isSuffixOf nome.data || ".xlsx".data.isSuffixOf nome.data

/-- `df[c] = v`: pandas column assignment with a constant — overwrites the
column in place when the label exists, otherwise appends a new column at
the end holding `v` in every row. -/
def setColumn (df : DataFrame) (c : String) (v : Val) : DataFrame :=
  match firstIdx c df.cols with
  | some j => ⟨df.cols, df.rows.map (fun r => r.set j v)⟩
  | none => ⟨df.cols ++ [c], df.rows.map (fun r => r ++ [v])⟩

/-- `df['Origem_Arquivo'] = arquivo` — stamp every row with the literal
file name. -/
def marcarOrigem (nome : String) (df : DataFrame) : DataFrame :=
  setColumn df "Origem_Arquivo" (Val.str nome)

/-- Union of the column labels of a list of frames in order of first
appearance (`pd.concat` with the default `sort=False`). -/
def acumulaColunas (acc : List String) : List DataFrame → List String
  | [] => acc
  | d :: ds => acumulaColunas (acc ++ d.cols.filter (fun c => c ∉ acc)) ds

def unionCols (dfs : List DataFrame) : List String :=
  acumulaColunas [] dfs

/-- Reindex one row from its own column list to a target column list:
the source's cell under each target label, `null` where the source lacks
the label. -/
def reindexRow (srcCols : List String) (row : List Val) (tgtCols : List String) : List Val :=
  tgtCols.map (fun c => cellVal srcCols row c)

/-- `pd.concat(dfs, ignore_index=True)`: columns are the union in order of
first appearance, rows are every frame's rows in order, reindexed to the
union (missing columns become null). -/
def pdConcat (dfs : List DataFrame) : DataFrame :=
  let cols := unionCols dfs
  ⟨cols, (dfs.map (fun d => d.rows.map (fun r => reindexRow d.cols r cols))).flatten⟩

/-- `carregar_dados` (code.py lines 33–58).  A directory is its listing in
`os.listdir` order.  The per-file `try/except` is the `filterMap`: a file
whose parse raised is warned about and skipped. -/
def carregar_dados (diretorio : List Arquivo) : Except Erro DataFrame :=
  let arquivos := diretorio.filter (fun a => reconhecido a.nome)
  if arquivos.isEmpty then .error .NoInputFiles
  else
    let dfs := arquivos.filterMap (fun a => a.conteudo.map (fun d => marcarOrigem a.nome d))
    if dfs.isEmpty then .error .NoLoadableData
    else .ok (pdConcat dfs)

/-- The tables that survive loading: eligible files whose parse succeeded,
each stamped with its provenance column. -/
def sobreviventes (diretorio : List Arquivo) : List DataFrame :=
  (diretorio.filter (fun a => reconhecido a.nome)).filterMap
    (fun a => a.conteudo.map (fun d => marcarOrigem a.nome d))

/-- Digit-string reading used by the date-parser model. -/
def lerNatAux : List Char → Nat → Option Nat
  | [], acc => some acc
  | c :: cs, acc =>
    if c.isDigit then lerNatAux cs (acc * 10 + (c.toNat - 48)) else none

def lerNat (s : String) : Option Nat :=
  match s.data with
  | [] => none
  | cs => lerNatAux cs 0

/-- Models `pd.to_datetime(·, errors="coerce")` cell-wise at the
collaborator boundary: values the parser can interpret become datetimes
(datetimes kept, whole numbers read as epoch offsets, digit strings read
through the date parser), everything else becomes `NaT` (null). -/
def paraData (v : Val) : Val :=
  match v with
  | .date t => .date t
  | .num q => if q.den = 1 then .date q.num else .null
  | .str s => match lerNat s with
    | some n => .date (n : ℤ)
    | none => .null
  | .null => .null

/-- `df[c] = f(df[c])` — replace a column's values in place, cell-wise.
Only evaluated under a guard that guarantees the label exists. -/
def mapColumn (df : DataFrame) (c : String) (f : Val → Val) : DataFrame :=
  match firstIdx c df.cols with
  | some j => ⟨df.cols, df.rows.map (fun r => r.set j (f (r.getD j Val.null)))⟩
  | none => df

/-- Caller-visible effect of `gerar_graficos` (code.py lines 85–102): the
in-place assignment `df['data'] = pd.to_datetime(df['data'],
errors='coerce')` mutates the shared frame.  The subsequent
`df = df.dropna(subset=['data'])` rebinds the local name to a fresh copy,
so the later `df['mês'] = ...` and the chart writes never touch the
caller's frame. -/
def gerar_graficos_efeito (df : DataFrame) : DataFrame :=
  if "data" ∈ df.cols then mapColumn df "data" paraData else df

/-- `main` (code.py lines 137–158) up to the hand-off to `exportar_excel`:
load, compute the metrics from the freshly loaded frame, run the chart
exporter (which mutates the frame), and return what `exportar_excel`
receives — the metrics dict and the mutated frame. -/
def main_fluxo (diretorio : List Arquivo) :
    Except Erro (List (String × ℚ) × DataFrame) :=
  match carregar_dados diretorio with
  | .error e => .error e
  | .ok df =>
    match calcular_metricas df with
    | .error e => .error e
    | .ok metricas => .ok (metricas, gerar_graficos_efeito df)

/-- The fixed indicator vocabulary the metrics engine matches against. -/
def vocabularioMetricas : List String :=
  ["receita", "despesa", "funcionario", "producao", "vendas", "quantidade"]

/-- The indicator labels whose column preconditions hold, in the engine's
fixed evaluation order. -/
def chavesEsperadas (df : DataFrame) : List String :=
  (if "receita" ∈ lowerCols df then ["Receita Total"] else [])
  ++ (if "despesa" ∈ lowerCols df then ["Custo Operacional Total"] else [])
  ++ (if "funcionario" ∈ lowerCols df ∧ "producao" ∈ lowerCols df then
        ["Produtividade Média"] else [])
  ++ (if "receita" ∈ lowerCols df ∧ "despesa" ∈ lowerCols df then
        ["Lucro Líquido"] else [])
  ++ (if "vendas" ∈ lowerCols df ∧ "quantidade" ∈ lowerCols df then
        ["Ticket Médio"] else [])

/-! ### Concrete scenario data used by the claim instances -/

def quadroC2 : DataFrame := ⟨["Receita", "despesa"], [[Val.num 10, Val.num 4]]⟩

/-- The consolidation scenario of C4: a file with `receita`/`despesa`
holding `[[100, 40], [200, 60]]` and a file with only `receita` holding
`[[50]]`. -/
def cenarioC4 : List Arquivo :=
  [⟨"janeiro.csv", some ⟨["receita", "despesa"],
      [[Val.num 100, Val.num 40], [Val.num 200, Val.num 60]]⟩⟩,
   ⟨"fevereiro.csv", some ⟨["receita"], [[Val.num 50]]⟩⟩]

/-- The C5 scenario: `funcionario` = `[1,1,2]`, `producao` = `[10,20,30]`. -/
def quadroC5 : DataFrame :=
  ⟨["funcionario", "producao"],
    [[Val.num 1, Val.num 10], [Val.num 1, Val.num 20], [Val.num 2, Val.num 30]]⟩

def quadroC6 : DataFrame := ⟨["receita", "quantidade"], [[Val.num 8, Val.num 2]]⟩

def quadroC6semColunas : DataFrame :=
  ⟨["nome", "cargo"], [[Val.str "ana", Val.str "gerente"]]⟩

def quadroC10 : DataFrame :=
  ⟨["vendas", "quantidade"], [[Val.num 100, Val.num 4], [Val.num 50, Val.num 1]]⟩

def dirC3semArquivos : List Arquivo := [⟨"leia-me.txt", none⟩]

def dirC3quebrado : List Arquivo := [⟨"quebrado.csv", none⟩]

def dirC3misto : List Arquivo :=
  [⟨"quebrado.csv", none⟩, ⟨"bom.csv", some ⟨["receita"], [[Val.num 1]]⟩⟩]

def dirC7 : List Arquivo :=
  [⟨"a.csv", some ⟨["x"], [[Val.num 1]]⟩⟩, ⟨"b.csv", some ⟨["y"], [[Val.num 2]]⟩⟩]

def tabelaC7 : DataFrame :=
  ⟨["x", "Origem_Arquivo", "y"],
    [[Val.num 1, Val.str "a.csv", Val.null], [Val.null, Val.str "b.csv", Val.num 2]]⟩

def dirC8 : List Arquivo :=
  [⟨"dados.csv", some ⟨["receita"], [[Val.num 7]]⟩⟩,
   ⟨"notas.txt", none⟩,
   ⟨"planilha.xlsx", some ⟨["despesa"], [[Val.num 3]]⟩⟩]

def tabelaC8 : DataFrame :=
  ⟨["receita", "Origem_Arquivo", "despesa"],
    [[Val.num 7, Val.str "dados.csv", Val.null],
     [Val.null, Val.str "planilha.xlsx", Val.num 3]]⟩

def quadroC9 : DataFrame :=
  ⟨["data", "receita"], [[Val.null, Val.num 3], [Val.num 5, Val.num 7]]⟩

/-! ### Bridging the computable arithmetic to the field operations on ℚ -/

theorem qAdd_eq_add (a b : ℚ) : qAdd a b = a + b := by
  have ha : ((a.den : ℚ)) ≠ 0 := by exact_mod_cast a.den_ne_zero
  have hb : ((b.den : ℚ)) ≠ 0 := by exact_mod_cast b.den_ne_zero
  have h1 := (div_eq_iff ha).mp (Rat.num_div_den a)
  have h2 := (div_eq_iff hb).mp (Rat.num_div_den b)
  rw [qAdd, Rat.mkRat_eq_div]
  push_cast
  rw [div_eq_iff (mul_ne_zero ha hb), h1, h2]
  ring

theorem qSub_eq_sub (a b : ℚ) : qSub a b = a - b := by
  have ha : ((a.den : ℚ)) ≠ 0 := by exact_mod_cast a.den_ne_zero
  have hb : ((b.den : ℚ)) ≠ 0 := by exact_mod_cast b.den_ne_zero
  have h1 := (div_eq_iff ha).mp (Rat.num_div_den a)
  have h2 := (div_eq_iff hb).mp (Rat.num_div_den b)
  rw [qSub, Rat.mkRat_eq_div]
  push_cast
  rw [div_eq_iff (mul_ne_zero ha hb), h1, h2]
  ring

theorem qDiv_eq_div (a b : ℚ) : qDiv a b = a / b := by
  rcases eq_or_ne b 0 with rfl | hb0
  · simp [qDiv, Rat.num_zero]
  · have ha : ((a.den : ℚ)) ≠ 0 := by exact_mod_cast a.den_ne_zero
    have hb : ((b.den : ℚ)) ≠ 0 := by exact_mod_cast b.den_ne_zero
    have hnumZ : b.num ≠ 0 := Rat.num_ne_zero.mpr hb0
    have hnum : ((b.num : ℚ)) ≠ 0 := by exact_mod_cast hnumZ
    have h1 := (div_eq_iff ha).mp (Rat.num_div_den a)
    have h2 := (div_eq_iff hb).mp (Rat.num_div_den b)
    rcases le_or_lt 0 b.num with hpos | hneg
    · rw [qDiv, if_pos hpos, Rat.mkRat_eq_div]
      have ht : ((b.num.toNat : ℕ) : ℚ) = (b.num : ℚ) := by
        exact_mod_cast Int.toNat_of_nonneg hpos
      push_cast
      rw [ht, div_eq_div_iff (mul_ne_zero ha hnum) hb0, h1, h2]
      ring
    · rw [qDiv, if_neg (not_le.mpr hneg), Rat.mkRat_eq_div]
      have ht : (((-b.num).toNat : ℕ) : ℚ) = -(b.num : ℚ) := by
        exact_mod_cast Int.toNat_of_nonneg (by omega : (0:ℤ) ≤ -b.num)
      push_cast
      rw [ht, div_eq_div_iff (mul_ne_zero ha (neg_ne_zero.mpr hnum)) hb0, h1, h2]
      ring

theorem foldr_qAdd_eq_sum (l : List ℚ) : l.foldr qAdd 0 = l.sum := by
  induction l with
  | nil => simp
  | cons x xs ih => simp [qAdd_eq_add, ih]

/-- The embedded column sum is the ordinary sum of the numeric entries. -/
theorem somaColuna_eq_sum (vs : List Val) :
    somaColuna vs = ((vs.filterMap toNum).sum : ℚ) := by
  rw [somaColuna, foldr_qAdd_eq_sum]

/-! ### Structural lemmas about label lookup, reindexing and column union -/

theorem firstIdx_lt {c : String} :
    ∀ {cs : List String} {j : Nat}, firstIdx c cs = some j → j < cs.length := by
  intro cs
  induction cs with
  | nil => intro j h; simp [firstIdx] at h
  | cons c' cs ih =>
    intro j h
    by_cases hc : c' = c
    · simp [firstIdx, hc] at h
      simp only [List.length_cons]
      omega
    · simp [firstIdx, hc] at h
      obtain ⟨a, ha, rfl⟩ := h
      have := ih ha
      simp only [List.length_cons]
      omega

theorem firstIdx_getD {c : String} :
    ∀ {cs : List String} {j : Nat}, firstIdx c cs = some j → cs.getD j "" = c := by
  intro cs
  induction cs with
  | nil => intro j h; simp [firstIdx] at h
  | cons c' cs ih =>
    intro j h
    by_cases hc : c' = c
    · simp [firstIdx, hc] at h
      subst h
      simpa using hc
    · simp [firstIdx, hc] at h
      obtain ⟨a, ha, rfl⟩ := h
      simpa using ih ha

theorem firstIdx_eq_none {c : String} :
    ∀ {cs : List String}, firstIdx c cs = none ↔ c ∉ cs := by
  intro cs
  induction cs with
  | nil => simp [firstIdx]
  | cons c' cs ih =>
    by_cases hc : c' = c
    · simp [firstIdx, hc]
    · simp [firstIdx, hc, ih, Ne.symm hc]

theorem firstIdx_isSome_of_mem {c : String} {cs : List String} (h : c ∈ cs) :
    ∃ j, firstIdx c cs = some j := by
  cases hfi : firstIdx c cs with
  | none => exact absurd h (firstIdx_eq_none.mp hfi)
  | some j => exact ⟨j, rfl⟩

/-- Reading label `c` out of a row built by mapping `g` over the labels
recovers `g c` whenever `c` occurs among the labels. -/
theorem cellVal_map_labels {tgt : List String} {g : String → Val} {c : String}
    (h : c ∈ tgt) : cellVal tgt (tgt.map g) c = g c := by
  obtain ⟨j, hj⟩ := firstIdx_isSome_of_mem h
  have hlt := firstIdx_lt hj
  have hget := firstIdx_getD hj
  rw [cellVal, hj]
  show (tgt.map g).getD j Val.null = g c
  rw [List.getD_eq_getElem?_getD, List.getElem?_map, List.getElem?_eq_getElem hlt]
  have hc : tgt[j] = c := by
    rw [show tgt[j] = tgt.getD j "" from (List.getD_eq_getElem _ _ hlt).symm, hget]
  simp [hc]

/-- Reindexing preserves every label present in the target column list. -/
theorem cellVal_reindexRow {src tgt : List String} {row : List Val} {c : String}
    (h : c ∈ tgt) :
    cellVal tgt (reindexRow src row tgt) c = cellVal src row c :=
  cellVal_map_labels h

theorem mem_acumulaColunas {c : String} :
    ∀ (dfs : List DataFrame) (acc : List String),
      (c ∈ acc ∨ ∃ d ∈ dfs, c ∈ d.cols) → c ∈ acumulaColunas acc dfs := by
  intro dfs
  induction dfs with
  | nil => intro acc h; simpa [acumulaColunas] using h
  | cons d ds ih =>
    intro acc h
    rw [acumulaColunas]
    apply ih
    rcases h with hacc | ⟨d', hd', hc⟩
    · exact Or.inl (List.mem_append_left _ hacc)
    · rcases List.mem_cons.mp hd' with rfl | hd'
      · by_cases hacc : c ∈ acc
        · exact Or.inl (List.mem_append_left _ hacc)
        · exact Or.inl (List.mem_append_right _ (List.mem_filter.mpr ⟨hc, by simpa using hacc⟩))
      · exact Or.inr ⟨d', hd', hc⟩

theorem mem_unionCols {c : String} {d : DataFrame} {dfs : List DataFrame}
    (hd : d ∈ dfs) (hc : c ∈ d.cols) : c ∈ unionCols dfs :=
  mem_acumulaColunas dfs [] (Or.inr ⟨d, hd, hc⟩)

/-! ### Characterizing `calcular_metricas` on success -/

theorem getColumn_ok {df : DataFrame} {c : String} {l : List Val}
    (h : getColumn df c = .ok l) : c ∈ df.cols ∧ l = coluna df c := by
  rw [getColumn] at h
  cases hfi : firstIdx c df.cols with
  | none => rw [hfi] at h; exact Except.noConfusion h
  | some j =>
    rw [hfi] at h
    injection h with h
    refine ⟨?_, h.symm⟩
    by_contra hmem
    rw [← firstIdx_eq_none] at hmem
    rw [hmem] at hfi
    exact Option.noConfusion hfi

theorem getColumn_of_mem {df : DataFrame} {c : String} (h : c ∈ df.cols) :
    getColumn df c = .ok (coluna df c) := by
  obtain ⟨j, hj⟩ := firstIdx_isSome_of_mem h
  rw [getColumn, hj]

/-- Characterizes the two guarded two-column reads of `calcular_metricas`
(`funcionario`/`producao` and `vendas`/`quantidade`): on a successful
outcome, if the guard held then both literal columns exist and the produced
entries are built from their values; if it did not, nothing was produced. -/
theorem leituraCondicional_ok {p : Prop} [Decidable p] {df : DataFrame} {a b : String}
    {g : List Val → List Val → List (String × ℚ)} {mp : List (String × ℚ)}
    (h : (if p then
            (getColumn df a).bind (fun x => (getColumn df b).map (fun y => g x y))
          else .ok []) = .ok mp) :
    (p → a ∈ df.cols ∧ b ∈ df.cols ∧ mp = g (coluna df a) (coluna df b)) ∧
    (¬p → mp = []) := by
  by_cases hp : p
  · rw [if_pos hp] at h
    cases hga : getColumn df a with
    | error e => rw [hga] at h; simp [Except.bind] at h
    | ok x =>
      cases hgb : getColumn df b with
      | error e => rw [hga, hgb] at h; simp [Except.bind, Except.map] at h
      | ok y =>
        rw [hga, hgb] at h
        simp only [Except.bind, Except.map, Except.ok.injEq] at h
        obtain ⟨hma, hxa⟩ := getColumn_ok hga
        obtain ⟨hmb, hyb⟩ := getColumn_ok hgb
        exact ⟨fun _ => ⟨hma, hmb, by rw [← h, hxa, hyb]⟩, fun hnp => absurd hp hnp⟩
  · rw [if_neg hp] at h
    injection h with h
    exact ⟨fun hp' => absurd hp' hp, fun _ => h.symm⟩

/-- On success, `calcular_metricas` yields exactly the conditional entries
of the five rules, in evaluation order, and the two literal-subscripting
rules certify that their literal lowercase columns exist. -/
theorem calcular_metricas_ok {df : DataFrame} {m : List (String × ℚ)}
    (h : calcular_metricas df = .ok m) :
    (("funcionario" ∈ lowerCols df ∧ "producao" ∈ lowerCols df) →
      "producao" ∈ df.cols ∧ "funcionario" ∈ df.cols) ∧
    (("vendas" ∈ lowerCols df ∧ "quantidade" ∈ lowerCols df) →
      "vendas" ∈ df.cols ∧ "quantidade" ∈ df.cols) ∧
    m = (if "receita" ∈ lowerCols df then
          [("Receita Total", somaColuna (colunaOriginal df "receita"))] else [])
      ++ (if "despesa" ∈ lowerCols df then
          [("Custo Operacional Total", somaColuna (colunaOriginal df "despesa"))] else [])
      ++ (if "funcionario" ∈ lowerCols df ∧ "producao" ∈ lowerCols df then
          [("Produtividade Média",
            qDiv (somaColuna (coluna df "producao")) (nunique (coluna df "funcionario") : ℚ))]
          else [])
      ++ (if "receita" ∈ lowerCols df ∧ "despesa" ∈ lowerCols df then
          [("Lucro Líquido",
            qSub (somaColuna (colunaOriginal df "receita"))
              (somaColuna (colunaOriginal df "despesa")))] else [])
      ++ (if "vendas" ∈ lowerCols df ∧ "quantidade" ∈ lowerCols df then
          [("Ticket Médio",
            qDiv (somaColuna (coluna df "vendas")) (somaColuna (coluna df "quantidade")))]
          else []) := by
  simp only [calcular_metricas] at h
  rcases hmp : (if ("funcionario" ∈ lowerCols df ∧ "producao" ∈ lowerCols df) then
          (getColumn df "producao").bind (fun producao =>
            (getColumn df "funcionario").map (fun funcionario =>
              [("Produtividade Média",
                qDiv (somaColuna producao) (nunique funcionario : ℚ))]))
        else .ok []) with e | mp
  · rw [hmp] at h
    exact Except.noConfusion h
  rw [hmp] at h
  rcases hmt : (if ("vendas" ∈ lowerCols df ∧ "quantidade" ∈ lowerCols df) then
            (getColumn df "vendas").bind (fun vendas =>
              (getColumn df "quantidade").map (fun quantidade =>
                [("Ticket Médio", qDiv (somaColuna vendas) (somaColuna quantidade))]))
          else .ok []) with e | mt
  · rw [hmt] at h
    exact Except.noConfusion h
  rw [hmt] at h
  injection h with h
  have hprod := leituraCondicional_ok hmp
  have hvend := leituraCondicional_ok hmt
  refine ⟨fun hp => ⟨(hprod.1 hp).1, (hprod.1 hp).2.1⟩,
    fun hp => ⟨(hvend.1 hp).1, (hvend.1 hp).2.1⟩, ?_⟩
  have hmpv : mp = (if "funcionario" ∈ lowerCols df ∧ "producao" ∈ lowerCols df then
      [("Produtividade Média",
        qDiv (somaColuna (coluna df "producao")) (nunique (coluna df "funcionario") : ℚ))]
      else []) := by
    by_cases hfp : "funcionario" ∈ lowerCols df ∧ "producao" ∈ lowerCols df
    · rw [if_pos hfp]; exact (hprod.1 hfp).2.2
    · rw [if_neg hfp]; exact hprod.2 hfp
  have hmtv : mt = (if "vendas" ∈ lowerCols df ∧ "quantidade" ∈ lowerCols df then
      [("Ticket Médio",
        qDiv (somaColuna (coluna df "vendas")) (somaColuna (coluna df "quantidade")))]
      else []) := by
    by_cases hvq : "vendas" ∈ lowerCols df ∧ "quantidade" ∈ lowerCols df
    · rw [if_pos hvq]; exact (hvend.1 hvq).2.2
    · rw [if_neg hvq]; exact hvend.2 hvq
  subst hmpv hmtv
  rw [← h]
  have cne1 : (("Custo Operacional Total" : String) == "Receita Total") = false := by decide
  by_cases hr : "receita" ∈ lowerCols df <;>
    by_cases hd : "despesa" ∈ lowerCols df <;>
    by_cases hfp : "funcionario" ∈ lowerCols df ∧ "producao" ∈ lowerCols df <;>
    by_cases hvq : "vendas" ∈ lowerCols df ∧ "quantidade" ∈ lowerCols df <;>
    simp [hr, hd, hfp, hvq, valorDe, List.lookup, cne1]

/-! ### Characterizing `carregar_dados` -/

theorem pdConcat_cols (dfs : List DataFrame) : (pdConcat dfs).cols = unionCols dfs := rfl

theorem pdConcat_rows (dfs : List DataFrame) :
    (pdConcat dfs).rows =
      (dfs.map (fun d => d.rows.map (fun r => reindexRow d.cols r (pdConcat dfs).cols))).flatten :=
  rfl

/-- A successful load is exactly the concatenation of the surviving
(tagged) tables. -/
theorem carregar_dados_ok {dir : List Arquivo} {t : DataFrame}
    (h : carregar_dados dir = .ok t) : t = pdConcat (sobreviventes dir) := by
  simp only [carregar_dados] at h
  split at h
  · exact Except.noConfusion h
  · split at h
    · exact Except.noConfusion h
    · injection h with h
      rw [← h, sobreviventes]

theorem firstIdx_append_self {c : String} :
    ∀ {cs : List String}, c ∉ cs → firstIdx c (cs ++ [c]) = some cs.length := by
  intro cs
  induction cs with
  | nil => intro h; simp [firstIdx]
  | cons c' cs ih =>
    intro h
    have hc' : c' ≠ c := fun hcc => h (hcc ▸ List.mem_cons_self c' cs)
    simp only [List.cons_append, firstIdx, List.append_eq]
    rw [if_neg hc', ih (fun hm => h (List.mem_cons_of_mem _ hm))]
    simp

/-- The value written into the provenance column by `marcarOrigem`: every
row of the tagged frame reads back the file name under `Origem_Arquivo`. -/
theorem cellVal_marcarOrigem {nome : String} {d : DataFrame} (hwf : d.WF) :
    ∀ r ∈ (marcarOrigem nome d).rows,
      cellVal (marcarOrigem nome d).cols r "Origem_Arquivo" = Val.str nome := by
  intro r hr
  cases hfi : firstIdx "Origem_Arquivo" d.cols with
  | some j =>
    simp only [marcarOrigem, setColumn, hfi] at hr ⊢
    simp only [List.mem_map] at hr
    obtain ⟨r0, hr0, rfl⟩ := hr
    have hlt : j < r0.length := by rw [hwf r0 hr0]; exact firstIdx_lt hfi
    rw [cellVal, hfi]
    show (r0.set j (Val.str nome)).getD j Val.null = Val.str nome
    rw [List.getD_eq_getElem?_getD, List.getElem?_set_self hlt]
    rfl
  | none =>
    simp only [marcarOrigem, setColumn, hfi] at hr ⊢
    simp only [List.mem_map] at hr
    obtain ⟨r0, hr0, rfl⟩ := hr
    have hidx : firstIdx "Origem_Arquivo" (d.cols ++ ["Origem_Arquivo"]) = some d.cols.length :=
      firstIdx_append_self (firstIdx_eq_none.mp hfi)
    rw [cellVal, hidx]
    show (r0 ++ [Val.str nome]).getD d.cols.length Val.null = Val.str nome
    rw [List.getD_eq_getElem?_getD, ← hwf r0 hr0,
      List.getElem?_append_right (le_refl r0.length)]
    simp

/-- `marcarOrigem` guarantees the provenance column is present. -/
theorem origem_mem_marcarOrigem (nome : String) (d : DataFrame) :
    "Origem_Arquivo" ∈ (marcarOrigem nome d).cols := by
  cases hfi : firstIdx "Origem_Arquivo" d.cols with
  | some j =>
    simp only [marcarOrigem, setColumn, hfi]
    by_contra hmem
    rw [← firstIdx_eq_none] at hmem
    rw [hmem] at hfi
    exact Option.noConfusion hfi
  | none =>
    simp [marcarOrigem, setColumn, hfi]

/-! ### Claim theorems -/

/-- C1: the spec says every vocabulary token is matched case-insensitively,
with the engine locating the original-cased column before reading values.
That holds only for `receita`/`despesa`.  For `producao` (and likewise
`funcionario`, `vendas`, `quantidade`) the guard is case-insensitive but the
read is the literal lowercase subscript `df['producao']`: the all-lowercase
table computes `Produtividade Média`, while the same table with the column
recased to `Producao` raises `KeyError` instead of returning the same
mapping. -/
theorem C1_leitura_sensivel_a_caixa :
    calcular_metricas ⟨["funcionario", "producao"], [[Val.num 1, Val.num 10]]⟩ =
      .ok [("Produtividade Média", 10)] ∧
    calcular_metricas ⟨["funcionario", "Producao"], [[Val.num 1, Val.num 10]]⟩ =
      .error (.KeyError "producao") := by
  decide

/-- C2: whenever the metrics computation succeeds and both `receita` and
`despesa` columns are present (case-insensitively), the mapping contains
`Receita Total`, `Custo Operacional Total`, and `Lucro Líquido` equal
exactly to their difference; when exactly one of the two is present,
`Lucro Líquido` is absent. -/
theorem C2_lucro_liquido (df : DataFrame) (m : List (String × ℚ))
    (h : calcular_metricas df = .ok m) :
    (("receita" ∈ lowerCols df ∧ "despesa" ∈ lowerCols df) →
      m.lookup "Receita Total" =
        some (((colunaOriginal df "receita").filterMap toNum).sum) ∧
      m.lookup "Custo Operacional Total" =
        some (((colunaOriginal df "despesa").filterMap toNum).sum) ∧
      m.lookup "Lucro Líquido" =
        some (((colunaOriginal df "receita").filterMap toNum).sum -
          ((colunaOriginal df "despesa").filterMap toNum).sum)) ∧
    ((("receita" ∈ lowerCols df ∧ "despesa" ∉ lowerCols df) ∨
      ("receita" ∉ lowerCols df ∧ "despesa" ∈ lowerCols df)) →
      m.lookup "Lucro Líquido" = none) := by
  obtain ⟨-, -, hm⟩ := calcular_metricas_ok h
  subst hm
  constructor
  · rintro ⟨hr, hd⟩
    by_cases hfp : "funcionario" ∈ lowerCols df ∧ "producao" ∈ lowerCols df <;>
      by_cases hvq : "vendas" ∈ lowerCols df ∧ "quantidade" ∈ lowerCols df <;>
      simp [hr, hd, hfp, hvq, List.lookup, somaColuna_eq_sum, qSub_eq_sub]
  · rintro (⟨hr, hd⟩ | ⟨hr, hd⟩) <;>
      by_cases hfp : "funcionario" ∈ lowerCols df ∧ "producao" ∈ lowerCols df <;>
      by_cases hvq : "vendas" ∈ lowerCols df ∧ "quantidade" ∈ lowerCols df <;>
      simp [hr, hd, hfp, hvq, List.lookup]

theorem C2_lucro_liquido_witness :
    (([("Receita Total", (10 : ℚ)), ("Custo Operacional Total", 4), ("Lucro Líquido", 6)] :
        List (String × ℚ)).lookup "Receita Total" =
      some (((colunaOriginal quadroC2 "receita").filterMap toNum).sum)) ∧
    (([("Receita Total", (10 : ℚ)), ("Custo Operacional Total", 4), ("Lucro Líquido", 6)] :
        List (String × ℚ)).lookup "Custo Operacional Total" =
      some (((colunaOriginal quadroC2 "despesa").filterMap toNum).sum)) ∧
    (([("Receita Total", (10 : ℚ)), ("Custo Operacional Total", 4), ("Lucro Líquido", 6)] :
        List (String × ℚ)).lookup "Lucro Líquido" =
      some (((colunaOriginal quadroC2 "receita").filterMap toNum).sum -
        ((colunaOriginal quadroC2 "despesa").filterMap toNum).sum)) :=
  (C2_lucro_liquido quadroC2
      [("Receita Total", (10 : ℚ)), ("Custo Operacional Total", 4), ("Lucro Líquido", 6)]
      (by decide)).1 ⟨by decide, by decide⟩

/-- C4: in the sum-based metrics, nulls/absent values contribute 0.  On the
two-file consolidation the engine reports exactly `Receita Total` = 350,
`Custo Operacional Total` = 100 (the second file's missing `despesa`
contributing nothing), and `Lucro Líquido` = 250. -/
theorem C4_nulos_valem_zero :
    (carregar_dados cenarioC4).bind calcular_metricas =
      .ok [("Receita Total", 350), ("Custo Operacional Total", 100), ("Lucro Líquido", 250)] := by
  decide

/-- C5: when the metrics computation succeeds on a table with (case-
insensitive) `funcionario` and `producao` columns and a nonzero number of
distinct `funcionario` values, `Produtividade Média` is the sum of
`producao` divided by the number of distinct `funcionario` values. -/
theorem C5_produtividade_media (df : DataFrame) (m : List (String × ℚ))
    (hf : "funcionario" ∈ lowerCols df) (hp : "producao" ∈ lowerCols df)
    (h : calcular_metricas df = .ok m)
    (hn : nunique (coluna df "funcionario") ≠ 0) :
    m.lookup "Produtividade Média" =
      some (((coluna df "producao").filterMap toNum).sum /
        (nunique (coluna df "funcionario") : ℚ)) := by
  obtain ⟨-, -, hm⟩ := calcular_metricas_ok h
  subst hm
  by_cases hr : "receita" ∈ lowerCols df <;>
    by_cases hd : "despesa" ∈ lowerCols df <;>
    by_cases hvq : "vendas" ∈ lowerCols df ∧ "quantidade" ∈ lowerCols df <;>
    simp [hr, hd, hf, hp, hvq, List.lookup, somaColuna_eq_sum, qDiv_eq_div]

theorem C5_produtividade_media_witness :
    ([("Produtividade Média", (30 : ℚ))] : List (String × ℚ)).lookup "Produtividade Média" =
      some (((coluna quadroC5 "producao").filterMap toNum).sum /
        (nunique (coluna quadroC5 "funcionario") : ℚ)) :=
  C5_produtividade_media quadroC5 [("Produtividade Média", (30 : ℚ))]
    (by decide) (by decide) (by decide) (by decide)

/-- C6: on success the mapping's keys are exactly the indicators whose
preconditions held, in the fixed evaluation order (`chavesEsperadas`), and
a table with none of the recognized columns yields the empty mapping with
no error. -/
theorem C6_chaves_exatas (df : DataFrame) :
    (∀ m, calcular_metricas df = .ok m → m.map Prod.fst = chavesEsperadas df) ∧
    ((∀ t ∈ vocabularioMetricas, t ∉ lowerCols df) → calcular_metricas df = .ok []) := by
  constructor
  · intro m h
    obtain ⟨-, -, hm⟩ := calcular_metricas_ok h
    subst hm
    rw [chavesEsperadas]
    by_cases hr : "receita" ∈ lowerCols df <;>
      by_cases hd : "despesa" ∈ lowerCols df <;>
      by_cases hfp : "funcionario" ∈ lowerCols df ∧ "producao" ∈ lowerCols df <;>
      by_cases hvq : "vendas" ∈ lowerCols df ∧ "quantidade" ∈ lowerCols df <;>
      simp [hr, hd, hfp, hvq]
  · intro hnone
    have h1 : "receita" ∉ lowerCols df := hnone _ (by decide)
    have h2 : "despesa" ∉ lowerCols df := hnone _ (by decide)
    have h3 : "funcionario" ∉ lowerCols df := hnone _ (by decide)
    have h4 : "producao" ∉ lowerCols df := hnone _ (by decide)
    have h5 : "vendas" ∉ lowerCols df := hnone _ (by decide)
    have h6 : "quantidade" ∉ lowerCols df := hnone _ (by decide)
    simp [calcular_metricas, h1, h2, h3, h4, h5, h6]

theorem C6_chaves_exatas_witness :
    ([("Receita Total", (8 : ℚ))] : List (String × ℚ)).map Prod.fst =
      chavesEsperadas quadroC6 ∧
    calcular_metricas quadroC6semColunas = .ok [] :=
  ⟨(C6_chaves_exatas quadroC6).1 [("Receita Total", (8 : ℚ))] (by decide),
   (C6_chaves_exatas quadroC6semColunas).2 (by decide)⟩

/-- C10: on a successful computation over a table with literal `vendas`
and `quantidade` columns, `Ticket Médio` is the unguarded quotient of the
column sums; under the precondition that the `quantidade` sum is nonzero
the division is safe and equals the stated quotient. -/
theorem C10_ticket_medio (df : DataFrame) (m : List (String × ℚ))
    (hv : "vendas" ∈ df.cols) (hq : "quantidade" ∈ df.cols)
    (h : calcular_metricas df = .ok m)
    (hden : ((coluna df "quantidade").filterMap toNum).sum ≠ 0) :
    m.lookup "Ticket Médio" =
      some (((coluna df "vendas").filterMap toNum).sum /
        ((coluna df "quantidade").filterMap toNum).sum) := by
  have hvl : "vendas" ∈ lowerCols df := by
    rw [lowerCols]; exact List.mem_map.mpr ⟨"vendas", hv, by decide⟩
  have hql : "quantidade" ∈ lowerCols df := by
    rw [lowerCols]; exact List.mem_map.mpr ⟨"quantidade", hq, by decide⟩
  obtain ⟨-, -, hm⟩ := calcular_metricas_ok h
  subst hm
  by_cases hr : "receita" ∈ lowerCols df <;>
    by_cases hd : "despesa" ∈ lowerCols df <;>
    by_cases hfp : "funcionario" ∈ lowerCols df ∧ "producao" ∈ lowerCols df <;>
    simp [hr, hd, hfp, hvl, hql, List.lookup, somaColuna_eq_sum, qDiv_eq_div]

theorem C10_ticket_medio_witness :
    ([("Ticket Médio", (30 : ℚ))] : List (String × ℚ)).lookup "Ticket Médio" =
      some (((coluna quadroC10 "vendas").filterMap toNum).sum /
        ((coluna quadroC10 "quantidade").filterMap toNum).sum) :=
  C10_ticket_medio quadroC10 [("Ticket Médio", (30 : ℚ))] (by decide) (by decide)
    (by decide) (by rw [← somaColuna_eq_sum]; decide)

/-- C3: a directory with no recognized file fails `NoInputFiles`; eligible
files that all fail to parse give `NoLoadableData`; and as soon as one
eligible file parses, the load succeeds with exactly the surviving files'
consolidation (failed files excluded, the rest loaded). -/
theorem C3_erros_de_carga (dir : List Arquivo) :
    ((dir.filter (fun a => reconhecido a.nome)) = [] →
      carregar_dados dir = .error .NoInputFiles) ∧
    ((dir.filter (fun a => reconhecido a.nome)) ≠ [] →
      (∀ a ∈ dir, reconhecido a.nome = true → a.conteudo = none) →
      carregar_dados dir = .error .NoLoadableData) ∧
    (∀ a ∈ dir, reconhecido a.nome = true → ∀ d, a.conteudo = some d →
      carregar_dados dir = .ok (pdConcat (sobreviventes dir))) := by
  refine ⟨fun h => ?_, fun hne hall => ?_, fun a ha hrec d hd => ?_⟩
  · simp [carregar_dados, h]
  · have hdfs : (dir.filter (fun a => reconhecido a.nome)).filterMap
        (fun a => a.conteudo.map (fun d => marcarOrigem a.nome d)) = [] := by
      apply List.filterMap_eq_nil_iff.mpr
      intro a ha
      obtain ⟨hmem, hrecb⟩ := List.mem_filter.mp ha
      rw [hall a hmem hrecb]
      rfl
    simp [carregar_dados, List.isEmpty_iff, hne, hdfs]
  · have hmemf : a ∈ dir.filter (fun a => reconhecido a.nome) :=
      List.mem_filter.mpr ⟨ha, hrec⟩
    have hne : dir.filter (fun a => reconhecido a.nome) ≠ [] :=
      List.ne_nil_of_mem hmemf
    have hm2 : marcarOrigem a.nome d ∈ (dir.filter (fun a => reconhecido a.nome)).filterMap
        (fun a => a.conteudo.map (fun d => marcarOrigem a.nome d)) :=
      List.mem_filterMap.mpr ⟨a, hmemf, by rw [hd]; rfl⟩
    have hne2 := List.ne_nil_of_mem hm2
    simp [carregar_dados, List.isEmpty_iff, hne, hne2, sobreviventes]

theorem C3_erros_de_carga_witness :
    carregar_dados dirC3semArquivos = .error .NoInputFiles ∧
    carregar_dados dirC3quebrado = .error .NoLoadableData ∧
    carregar_dados dirC3misto = .ok (pdConcat (sobreviventes dirC3misto)) :=
  ⟨(C3_erros_de_carga dirC3semArquivos).1 (by decide),
   (C3_erros_de_carga dirC3quebrado).2.1 (by decide) (by decide),
   (C3_erros_de_carga dirC3misto).2.2 ⟨"bom.csv", some ⟨["receita"], [[Val.num 1]]⟩⟩
     (by decide) (by decide) ⟨["receita"], [[Val.num 1]]⟩ rfl⟩

/-- C7: a successful consolidation lists, in directory order, every
surviving file's rows in their original relative order — each row
reindexed to the union columns — with nothing deduplicated or dropped, and
reindexing preserves every cell the source file had under its own columns. -/
theorem C7_ordem_das_linhas (dir : List Arquivo) (t : DataFrame)
    (h : carregar_dados dir = .ok t) :
    t.cols = unionCols (sobreviventes dir) ∧
    t.rows = ((sobreviventes dir).map (fun d =>
      d.rows.map (fun r => reindexRow d.cols r t.cols))).flatten ∧
    t.rows.length = ((sobreviventes dir).map (fun d => d.rows.length)).sum ∧
    (∀ d ∈ sobreviventes dir, ∀ r, ∀ c ∈ d.cols,
      cellVal t.cols (reindexRow d.cols r t.cols) c = cellVal d.cols r c) := by
  have ht := carregar_dados_ok h
  subst ht
  refine ⟨rfl, rfl, ?_, ?_⟩
  · rw [pdConcat_rows, List.length_flatten]
    simp [List.map_map, Function.comp_def, List.length_map]
  · intro d hd r c hc
    exact cellVal_reindexRow (by rw [pdConcat_cols]; exact mem_unionCols hd hc)

theorem C7_ordem_das_linhas_witness :
    tabelaC7.cols = unionCols (sobreviventes dirC7) ∧
    tabelaC7.rows = ((sobreviventes dirC7).map (fun d =>
      d.rows.map (fun r => reindexRow d.cols r tabelaC7.cols))).flatten ∧
    tabelaC7.rows.length = ((sobreviventes dirC7).map (fun d => d.rows.length)).sum ∧
    (∀ d ∈ sobreviventes dirC7, ∀ r, ∀ c ∈ d.cols,
      cellVal tabelaC7.cols (reindexRow d.cols r tabelaC7.cols) c = cellVal d.cols r c) :=
  C7_ordem_das_linhas dirC7 tabelaC7 (by decide)

/-- C8: on a successful load of rectangular parses, the consolidated rows
are the reindexed survivor rows, and every row carries in `Origem_Arquivo`
the literal name of its source file — identical for all rows of a file. -/
theorem C8_origem_arquivo (dir : List Arquivo) (t : DataFrame)
    (h : carregar_dados dir = .ok t)
    (hwf : ∀ a ∈ dir, ∀ d, a.conteudo = some d → d.WF) :
    t.rows = ((sobreviventes dir).map (fun d =>
      d.rows.map (fun r => reindexRow d.cols r t.cols))).flatten ∧
    (∀ a ∈ dir, reconhecido a.nome = true → ∀ d, a.conteudo = some d →
      ∀ r ∈ (marcarOrigem a.nome d).rows,
        cellVal t.cols (reindexRow (marcarOrigem a.nome d).cols r t.cols) "Origem_Arquivo" =
          Val.str a.nome) := by
  have ht := carregar_dados_ok h
  subst ht
  refine ⟨rfl, ?_⟩
  intro a ha hrec d hd r hr
  have hmemf : a ∈ dir.filter (fun a => reconhecido a.nome) :=
    List.mem_filter.mpr ⟨ha, hrec⟩
  have hms : marcarOrigem a.nome d ∈ sobreviventes dir := by
    rw [sobreviventes]
    exact List.mem_filterMap.mpr ⟨a, hmemf, by rw [hd]; rfl⟩
  have hOA : "Origem_Arquivo" ∈ (pdConcat (sobreviventes dir)).cols := by
    rw [pdConcat_cols]
    exact mem_unionCols hms (origem_mem_marcarOrigem a.nome d)
  rw [cellVal_reindexRow hOA]
  exact cellVal_marcarOrigem (hwf a ha d hd) r hr

theorem C8_origem_arquivo_witness :
    tabelaC8.rows = ((sobreviventes dirC8).map (fun d =>
      d.rows.map (fun r => reindexRow d.cols r tabelaC8.cols))).flatten ∧
    (∀ a ∈ dirC8, reconhecido a.nome = true → ∀ d, a.conteudo = some d →
      ∀ r ∈ (marcarOrigem a.nome d).rows,
        cellVal tabelaC8.cols (reindexRow (marcarOrigem a.nome d).cols r tabelaC8.cols)
          "Origem_Arquivo" = Val.str a.nome) :=
  C8_origem_arquivo dirC8 tabelaC8 (by decide) (by decide)

/-- C9: the chart exporter's in-place assignment coerces the caller's
`data` column (unparseable entries become null) without touching any other
column or adding `mês` to the shared frame, and in `main`'s sequence the
spreadsheet exporter receives exactly this mutated frame. -/
theorem C9_mutacao_coluna_data (df : DataFrame) (hdata : "data" ∈ df.cols)
    (hwf : df.WF) :
    (gerar_graficos_efeito df).cols = df.cols ∧
    coluna (gerar_graficos_efeito df) "data" = (coluna df "data").map paraData ∧
    (∀ c, c ≠ "data" → coluna (gerar_graficos_efeito df) c = coluna df c) ∧
    (∀ dir mm t, carregar_dados dir = .ok df → main_fluxo dir = .ok (mm, t) →
      t = gerar_graficos_efeito df) := by
  obtain ⟨j, hj⟩ := firstIdx_isSome_of_mem hdata
  have hef : gerar_graficos_efeito df =
      ⟨df.cols, df.rows.map (fun r => r.set j (paraData (r.getD j Val.null)))⟩ := by
    rw [gerar_graficos_efeito, if_pos hdata, mapColumn, hj]
  refine ⟨by rw [hef], ?_, ?_, ?_⟩
  · rw [hef, coluna, coluna]
    show (df.rows.map fun r => r.set j (paraData (r.getD j Val.null))).map
        (fun r => cellVal df.cols r "data") =
      (df.rows.map fun r => cellVal df.cols r "data").map paraData
    rw [List.map_map, List.map_map]
    refine List.map_eq_map_iff.mpr ?_
    intro r hr
    have hlt : j < r.length := by rw [hwf r hr]; exact firstIdx_lt hj
    simp only [Function.comp, cellVal, hj]
    rw [List.getD_eq_getElem?_getD, List.getElem?_set_self hlt]
    rfl
  · intro c hc
    rw [hef, coluna, coluna]
    rw [List.map_map]
    refine List.map_eq_map_iff.mpr ?_
    intro r hr
    cases hfc : firstIdx c df.cols with
    | none => simp only [Function.comp, cellVal, hfc]
    | some j' =>
      have hne : j ≠ j' := by
        intro heq
        have e1 := firstIdx_getD hj
        have e2 := firstIdx_getD hfc
        rw [← heq] at e2
        rw [e1] at e2
        exact hc e2.symm
      simp only [Function.comp, cellVal, hfc]
      rw [List.getD_eq_getElem?_getD, List.getElem?_set_ne hne,
        ← List.getD_eq_getElem?_getD]
  · intro dir mm t hload hmain
    simp only [main_fluxo, hload] at hmain
    cases hcm : calcular_metricas df with
    | error e => rw [hcm] at hmain; exact Except.noConfusion hmain
    | ok mets =>
      simp only [hcm] at hmain
      injection hmain with hmain
      exact (congrArg Prod.snd hmain).symm

theorem C9_mutacao_coluna_data_witness :
    (gerar_graficos_efeito quadroC9).cols = quadroC9.cols ∧
    coluna (gerar_graficos_efeito quadroC9) "data" = (coluna quadroC9 "data").map paraData ∧
    (∀ c, c ≠ "data" → coluna (gerar_graficos_efeito quadroC9) c = coluna quadroC9 c) ∧
    (∀ dir mm t, carregar_dados dir = .ok quadroC9 → main_fluxo dir = .ok (mm, t) →
      t = gerar_graficos_efeito quadroC9) :=
  C9_mutacao_coluna_data quadroC9 (by decide) (by decide)
